import Mathlib

/-!
Verification of the dotLOG document-processing pipeline.

The definitions below are a shallow embedding of the TypeScript sources:
`src/services/contentAnalyzer.ts`, `src/services/documentEditor.ts`,
`src/services/fileMonitor.ts`, the `ErrorRecoveryService` (the second
half of `src/services/errorLogger.ts`), the timestamp service, the three
file handlers and `src/handlers/baseFileHandler.ts`.  A VS Code text
document is modelled as its list of lines plus the metadata fields the
code reads (file name, language id, URI scheme, untitled/dirty/closed
flags).  The host's side of each interaction is bundled into a `Host`
record of oracles: the (retry-stable) outcome of `applyEdit`, the
suggestion text of the stat-based permission analysis, the message of a
`lineAt` throw, and the active editor's URI.  Asynchrony, delays and
logging are collapsed away; retries are resolved under the stable
oracle (every attempt gets the same host answer), so the edit pipeline
returns either the immediate success or the recovery service's
final exhaustion result.  Everything else follows the source line by
line.
-/

/-- JavaScript-style whitespace test used by `String.prototype.trim`
(space, tab, line feed, carriage return, vertical tab, form feed,
no-break space cover every character the code can meet here). -/
def isJsSpace (c : Char) : Bool :=
  c = ' ' || c = '\t' || c = '\n' || c = '\r' ||
  c = '\x0b' || c = '\x0c' || c = ' '

/-- Drop JS whitespace from both ends of a character list. -/
def trimCharList (l : List Char) : List Char :=
  ((l.dropWhile isJsSpace).reverse.dropWhile isJsSpace).reverse

/-- Model of JavaScript `String.prototype.trim`. -/
def jsTrim (s : String) : String := ⟨trimCharList s.data⟩

/-- Model of JavaScript `String.prototype.toLowerCase` on the ASCII
file-name characters the code deals with. -/
def jsToLower (s : String) : String := ⟨s.data.map Char.toLower⟩

/-- Model of JavaScript `text.endsWith('\n')`: the last character is a
line feed. -/
def endsWithNewline (s : String) : Bool := s.data.getLast? = some '\n'

/-- The supported file types (`SupportedFileType` in `types/index.ts`). -/
inductive SupportedFileType where
  | text
  | log
  | markdown
deriving DecidableEq, Repr

/-- Processing lifecycle states (`ProcessingState` in `types/index.ts`). -/
inductive ProcessingState where
  | notStarted
  | inProgress
  | completed
  | failed
  | skipped
deriving DecidableEq, Repr

/-- A VS Code URI, reduced to the fields the code reads: its scheme and
the rest of its textual form. -/
structure Uri where
  scheme : String
  rest : String
deriving DecidableEq, Repr

/-- Model of `uri.toString()`. -/
def Uri.toText (u : Uri) : String := u.scheme ++ "://" ++ u.rest

/-- A VS Code text document, reduced to the fields the code reads.
`lines` is the host's line decomposition; the full text is the lines
interleaved with line feeds. -/
structure TextDocument where
  lines : List String
  fileName : String
  languageId : String
  uri : Uri
  isUntitled : Bool
  isDirty : Bool
  isClosed : Bool
deriving DecidableEq, Repr

/-- The document's full text (`document.getText()`):  the lines joined
by line feeds. -/
def getText (doc : TextDocument) : String := String.intercalate "\n" doc.lines

/-- `OperationResult<T>` from `types/index.ts`. -/
structure OperationResult (α : Type) where
  success : Bool
  data : Option α := none
  error : Option String := none
  errorCode : Option String := none
deriving DecidableEq, Repr

/-- `ProcessingResult` from `types/index.ts`. -/
structure ProcessingResult where
  success : Bool
  error : Option String := none
  documentModified : Bool
  processingState : ProcessingState
  timestamp : Option String := none
deriving DecidableEq, Repr

namespace ContentAnalyzer

/-- The marker literal `LOG_PREFIX = '.LOG'`. -/
def logMarker : String := ".LOG"

/-- `ContentAnalyzer.isLogFile`: at least one line, and the first line,
trimmed, equals the marker. -/
def isLogFile (doc : TextDocument) : Bool :=
  match doc.lines with
  | [] => false
  | firstLine :: _ => jsTrim firstLine = logMarker

/-- The extension the regex `\.([^.]+)$` extracts from a file name: the
nonempty run of non-dot characters after the last dot, if any. -/
def extOf (fileName : String) : Option String :=
  if fileName.data.contains '.' then
    match (fileName.data.reverse.takeWhile (fun c => c ≠ '.')).reverse with
    | [] => none
    | seg => some (jsToLower ⟨seg⟩)
  else none

/-- The language-id fallback of `ContentAnalyzer.getFileType`. -/
def fileTypeFromLanguageId (languageId : String) : Option SupportedFileType :=
  if languageId = "plaintext" then some .text
  else if languageId = "log" then some .log
  else if languageId = "markdown" then some .markdown
  else none

/-- `ContentAnalyzer.getFileType`: map a supported lowercase extension,
otherwise fall back to the language id. -/
def getFileType (doc : TextDocument) : Option SupportedFileType :=
  match extOf doc.fileName with
  | some ext =>
    if ext = "txt" then some .text
    else if ext = "log" then some .log
    else if ext = "md" then some .markdown
    else fileTypeFromLanguageId doc.languageId
  | none => fileTypeFromLanguageId doc.languageId

/-- `ContentAnalyzer.shouldProcessDocument`: marker present and the
file type supported. -/
def shouldProcessDocument (doc : TextDocument) : Bool :=
  isLogFile doc && (getFileType doc).isSome

/-- `DocumentContext` from `types/index.ts`. -/
structure DocumentContext where
  document : TextDocument
  fileType : SupportedFileType
  timestamp : String
  shouldProcess : Bool
  processingState : ProcessingState
deriving DecidableEq, Repr

/-- `ContentAnalyzer.analyzeContent`. -/
def analyzeContent (doc : TextDocument) : OperationResult DocumentContext :=
  match getFileType doc with
  | none =>
    { success := false
      error := some "Unsupported file type"
      errorCode := some "UNSUPPORTED_FILE_TYPE" }
  | some ft =>
    { success := true
      data := some
        { document := doc
          fileType := ft
          timestamp := ""
          shouldProcess := shouldProcessDocument doc
          processingState :=
            if shouldProcessDocument doc then .notStarted else .skipped } }

end ContentAnalyzer

namespace TimestampService

/-- A JavaScript `Date` reduced to the local-time components the
service reads.  `monthIndex` is 0-based, as returned by `getMonth()`. -/
structure JsDate where
  year : Nat
  monthIndex : Nat
  day : Nat
  hours : Nat
  minutes : Nat
deriving DecidableEq, Repr

/-- Model of `String(n).padStart(2, '0')` for a natural number. -/
def padTwo (n : Nat) : String :=
  if (Nat.repr n).length ≥ 2 then Nat.repr n else "0" ++ Nat.repr n

/-- `TimestampService.formatTimestamp`: the `YYYY-MM-DD HH:MM AM/PM`
string of a date, with a 12-hour zero-padded hour. -/
def formatTimestamp (d : JsDate) : String :=
  Nat.repr d.year ++ "-" ++ padTwo (d.monthIndex + 1) ++ "-" ++ padTwo d.day
    ++ " "
    ++ padTwo (if d.hours = 0 then 12 else if d.hours > 12 then d.hours - 12 else d.hours)
    ++ ":" ++ padTwo d.minutes
    ++ " " ++ (if d.hours ≥ 12 then "PM" else "AM")

/-- `TimestampService.getCurrentTimestamp` for a given current date:
the only fallible step is `new Date()`/string building, which cannot
fail, so the result is always a success carrying the formatted string. -/
def getCurrentTimestamp (now : JsDate) : OperationResult String :=
  { success := true, data := some (formatTimestamp now) }

end TimestampService

/-- `TextFileHandler.formatTimestamp`: the timestamp on its own line. -/
def textFormatTimestamp (timestamp : String) : String :=
  "\n" ++ timestamp ++ "\n"

/-- `LogFileHandler.formatTimestamp`: the timestamp on its own line. -/
def logFormatTimestamp (timestamp : String) : String :=
  "\n" ++ timestamp ++ "\n"

/-- `MarkdownFileHandler.formatTimestamp`: the timestamp as a level-2
heading on its own line. -/
def markdownFormatTimestamp (timestamp : String) : String :=
  "\n## " ++ timestamp ++ "\n"

/-- The handler registry built in `extension.ts`: every supported file
type is mapped to its handler's formatter, so lookup is total. -/
def handlerFor : SupportedFileType → (String → String)
  | .text => textFormatTimestamp
  | .log => logFormatTimestamp
  | .markdown => markdownFormatTimestamp

/-- The host-environment oracles the editor and recovery service
interact with, fixed for one processing run: the outcome the host gives
every `workspace.applyEdit` request (retry-stable), the suggestion text
produced by the recovery service's `fs.stat`-based permission analysis
(`none` when the stat call throws, in which case the empty string is
interpolated), the message of the error thrown by `lineAt` on an empty
buffer, and the active editor's document URI (`none` when no editor is
active). -/
structure Host where
  applyEditOk : Bool
  permissionAdvice : Option String
  lineAtFailureMsg : String
  activeEditorUri : Option Uri
deriving DecidableEq, Repr

namespace DocumentEditor

/-- `DocumentEditor.canModifyDocument`: closed documents cannot be
modified; clean untitled documents can; `file`-scheme documents are
assumed modifiable; any other scheme must be `untitled`. -/
def canModifyDocument (doc : TextDocument) : Bool :=
  if doc.isClosed then false
  else if doc.isUntitled && !doc.isDirty then true
  else if doc.uri.scheme = "file" then true
  else doc.uri.scheme = "untitled"

/-- `DocumentEditor.prepareTextForInsertion`: prepend a line feed when
the current last line is nonempty, append one when the text does not
already end with one. -/
def prepareTextForInsertion (doc : TextDocument) (text : String) : String :=
  match doc.lines with
  | [] => text
  | _ :: _ =>
    (if (doc.lines.getLastD "").length > 0 then "\n" else "")
      ++ text
      ++ (if endsWithNewline text then "" else "\n")

/-- `DocumentEditor.insertTextAtEnd`.  The insertion point is the end
of the last line, i.e. the end of the buffer, so a successful edit
appends the prepared text to the document text.  When the document is
not modifiable, the returned message interpolates the recovery
service's permission analysis: the suggestion text when its stat
succeeds, the empty string otherwise.  On an empty line list, reading
the last line throws and the catch folds the thrown message into a
modification failure.  Otherwise, the edit goes through
`applyEditWithRetryAndRecovery`: with the host's answer stable across
attempts, a positive answer succeeds immediately, while a negative one
fails `applyEditWithRetry`, enters
`ErrorRecoveryService.recoverFromDocumentModificationFailure`
(the document is not closed here, since `canModifyDocument` passed),
exhausts its three recovery attempts, and returns that service's final
exhaustion result.  Returns the operation result and the resulting
text. -/
def insertTextAtEnd (doc : TextDocument) (text : String) (host : Host) :
    OperationResult Bool × String :=
  if canModifyDocument doc = false then
    ({ success := false
       error := some ("Document is read-only or cannot be modified. "
         ++ host.permissionAdvice.getD "")
       errorCode := some "PERMISSION_DENIED" }, getText doc)
  else
    match doc.lines with
    | [] =>
      ({ success := false
         error := some ("Failed to insert text: " ++ host.lineAtFailureMsg)
         errorCode := some "DOCUMENT_MODIFICATION_FAILED" }, getText doc)
    | _ :: _ =>
      if host.applyEditOk then
        ({ success := true, data := some true },
         getText doc ++ prepareTextForInsertion doc text)
      else
        ({ success := false
           error := some "Maximum retry attempts (3) exceeded for applyEdit"
           errorCode := some "DOCUMENT_MODIFICATION_FAILED" }, getText doc)

/-- `DocumentEditor.positionCursorAtEnd`: requires the active editor to
show exactly this document (compared by URI text); never touches the
buffer content. -/
def positionCursorAtEnd (doc : TextDocument) (activeEditorUri : Option Uri) :
    OperationResult Unit :=
  match activeEditorUri with
  | none =>
    { success := false
      error := some "No active editor found for the document"
      errorCode := some "CURSOR_POSITIONING_FAILED" }
  | some u =>
    if u.toText = doc.uri.toText then
      { success := true, data := some () }
    else
      { success := false
        error := some "No active editor found for the document"
        errorCode := some "CURSOR_POSITIONING_FAILED" }

end DocumentEditor

namespace BaseFileHandler

/-- `BaseFileHandler.hasLogPrefix` in the source: identical to
`ContentAnalyzer.isLogFile`, recomputed so each handler is
self-contained. -/
def hasLogMarker (doc : TextDocument) : Bool :=
  match doc.lines with
  | [] => false
  | firstLine :: _ => jsTrim firstLine = ".LOG"

/-- `ErrorRecoveryService.gracefulTimestampFailure` (second half of
`services/errorLogger.ts`): log the failure, show the non-blocking
status-bar notice (side effects dropped here) and return a Processing
Result with success false, documentModified false, state Failed, the
error message prefixed accordingly, and the timestamp that could not be
inserted carried in the `timestamp` field. -/
def gracefulTimestampFailure (timestamp : String) (errMsg : String) :
    ProcessingResult :=
  { success := false
    error := some ("Could not insert timestamp: " ++ errMsg)
    documentModified := false
    processingState := .failed
    timestamp := some timestamp }

/-- `BaseFileHandler.processDocument`: check mutability, format the
timestamp, insert it at the end, then position the cursor; a cursor
failure is logged but never demotes the outcome.  Returns the
processing result and the resulting document text. -/
def processDocument (fmt : String → String) (doc : TextDocument)
    (timestamp : String) (host : Host) :
    ProcessingResult × String :=
  if DocumentEditor.canModifyDocument doc = false then
    ({ success := false
       error := some "Document is read-only or cannot be modified"
       documentModified := false
       processingState := .failed }, getText doc)
  else
    match DocumentEditor.insertTextAtEnd doc (fmt timestamp) host with
    | (insertResult, newText) =>
      if insertResult.success = false then
        (gracefulTimestampFailure (fmt timestamp)
          (insertResult.error.getD "Failed to insert timestamp"), newText)
      else
        -- cursor positioning runs here; its failure only produces a warning
        let _cursorResult :=
          DocumentEditor.positionCursorAtEnd doc host.activeEditorUri
        ({ success := true
           documentModified := true
           processingState := .completed
           timestamp := some (fmt timestamp) }, newText)

end BaseFileHandler

namespace FileMonitor

/-- `FileMonitor.onDocumentOpened`: analyze, skip or process. Returns
the processing result and the resulting document text. -/
def onDocumentOpened (doc : TextDocument) (now : TimestampService.JsDate)
    (host : Host) :
    ProcessingResult × String :=
  match (ContentAnalyzer.analyzeContent doc).data with
  | none =>
    ({ success := false
       error := some ((ContentAnalyzer.analyzeContent doc).error.getD
         "Content analysis failed")
       documentModified := false
       processingState := .failed }, getText doc)
  | some context =>
    if context.shouldProcess = false then
      ({ success := true
         documentModified := false
         processingState := .skipped }, getText doc)
    else
      match (TimestampService.getCurrentTimestamp now).data with
      | none =>
        ({ success := false
           error := some "Failed to generate timestamp"
           documentModified := false
           processingState := .failed }, getText doc)
      | some ts =>
        BaseFileHandler.processDocument (handlerFor context.fileType) doc ts
          host

/-- `FileMonitor.handleDocumentOpened`, the event-stream entry point:
documents with no detected file type are skipped silently (no result);
otherwise the event is delegated to `onDocumentOpened`. -/
def handleDocumentOpened (doc : TextDocument) (now : TimestampService.JsDate)
    (host : Host) :
    Option (ProcessingResult × String) :=
  match ContentAnalyzer.getFileType doc with
  | none => none
  | some _ => some (onDocumentOpened doc now host)

/-- The monitor's mutable state: the `isActive` flag and whether the
event subscription (`disposable`) is currently held. -/
structure MonitorState where
  isActive : Bool
  hasSubscription : Bool
deriving DecidableEq, Repr

/-- `FileMonitor.startMonitoring`. -/
def startMonitoring (s : MonitorState) : MonitorState × OperationResult Unit :=
  if s.isActive then
    (s, { success := false
          error := some "File monitoring is already active"
          errorCode := some "MONITOR_ALREADY_ACTIVE" })
  else
    ({ isActive := true, hasSubscription := true },
     { success := true, data := some () })

/-- `FileMonitor.stopMonitoring`. -/
def stopMonitoring (s : MonitorState) : MonitorState × OperationResult Unit :=
  if s.isActive = false then
    (s, { success := false
          error := some "File monitoring is not active"
          errorCode := some "MONITOR_NOT_ACTIVE" })
  else
    ({ isActive := false, hasSubscription := false },
     { success := true, data := some () })

/-- `FileMonitor.dispose`: stop monitoring, discarding the result. -/
def dispose (s : MonitorState) : MonitorState := (stopMonitoring s).fst

end FileMonitor

/-! ## Shared facts about the embedding -/

/-- A string extended with a line feed ends with a line feed. -/
theorem endsWithNewline_append_newline (s : String) :
    endsWithNewline (s ++ "\n") = true := by
  simp [endsWithNewline, String.data_append]

/-- Every handler's formatted insertion ends with a line feed. -/
theorem handlerFor_endsWithNewline (t : SupportedFileType) (ts : String) :
    endsWithNewline (handlerFor t ts) = true := by
  cases t <;>
    exact endsWithNewline_append_newline _

/-- A document that passes the marker test has at least one line. -/
theorem isLogFile_lines_ne_nil {doc : TextDocument}
    (h : ContentAnalyzer.isLogFile doc = true) : doc.lines ≠ [] := by
  intro hl
  simp [ContentAnalyzer.isLogFile, hl] at h

/-- Text preparation on a nonempty document, spelt out. -/
theorem prepareTextForInsertion_eq (doc : TextDocument) (text : String)
    (h : doc.lines ≠ []) :
    DocumentEditor.prepareTextForInsertion doc text =
      (if (doc.lines.getLastD "").length > 0 then "\n" else "")
        ++ text
        ++ (if endsWithNewline text then "" else "\n") := by
  cases hl : doc.lines with
  | nil => exact absurd hl h
  | cons f r => simp [DocumentEditor.prepareTextForInsertion, hl]

/-- A successful host edit on a modifiable, nonempty document appends
the prepared text. -/
theorem insertTextAtEnd_applied (doc : TextDocument) (text : String)
    (host : Host)
    (hmod : DocumentEditor.canModifyDocument doc = true)
    (hne : doc.lines ≠ [])
    (hok : host.applyEditOk = true) :
    DocumentEditor.insertTextAtEnd doc text host =
      ({ success := true, data := some true },
       getText doc ++ DocumentEditor.prepareTextForInsertion doc text) := by
  cases hl : doc.lines with
  | nil => exact absurd hl hne
  | cons f r => simp [DocumentEditor.insertTextAtEnd, hmod, hl, hok]

/-- `processDocument` on a modifiable nonempty document with a
successful host edit: completed, modified, text appended. -/
theorem processDocument_completed (fmt : String → String)
    (doc : TextDocument) (ts : String) (host : Host)
    (hmod : DocumentEditor.canModifyDocument doc = true)
    (hne : doc.lines ≠ [])
    (hok : host.applyEditOk = true) :
    BaseFileHandler.processDocument fmt doc ts host =
      ({ success := true
         documentModified := true
         processingState := .completed
         timestamp := some (fmt ts) },
       getText doc ++ DocumentEditor.prepareTextForInsertion doc (fmt ts)) := by
  simp [BaseFileHandler.processDocument, hmod,
    insertTextAtEnd_applied doc (fmt ts) host hmod hne hok]

/-- `analyzeContent` on a document with a detected file type. -/
theorem analyzeContent_of_fileType {doc : TextDocument}
    {ft : SupportedFileType} (h : ContentAnalyzer.getFileType doc = some ft) :
    ContentAnalyzer.analyzeContent doc =
      { success := true
        data := some
          { document := doc
            fileType := ft
            timestamp := ""
            shouldProcess := ContentAnalyzer.shouldProcessDocument doc
            processingState :=
              if ContentAnalyzer.shouldProcessDocument doc
              then .notStarted else .skipped } } := by
  simp [ContentAnalyzer.analyzeContent, h]

/-- `analyzeContent` on a document with no detected file type. -/
theorem analyzeContent_of_no_fileType {doc : TextDocument}
    (h : ContentAnalyzer.getFileType doc = none) :
    ContentAnalyzer.analyzeContent doc =
      { success := false
        error := some "Unsupported file type"
        errorCode := some "UNSUPPORTED_FILE_TYPE" } := by
  simp [ContentAnalyzer.analyzeContent, h]

/-- `onDocumentOpened` delegates to the detected type's handler when
the document should be processed. -/
theorem onDocumentOpened_delegates {doc : TextDocument}
    {ft : SupportedFileType} (h : ContentAnalyzer.getFileType doc = some ft)
    (hsp : ContentAnalyzer.shouldProcessDocument doc = true)
    (now : TimestampService.JsDate) (host : Host) :
    FileMonitor.onDocumentOpened doc now host =
      BaseFileHandler.processDocument (handlerFor ft) doc
        (TimestampService.formatTimestamp now) host := by
  simp [FileMonitor.onDocumentOpened, analyzeContent_of_fileType h, hsp,
    TimestampService.getCurrentTimestamp]

/-- `onDocumentOpened` skips when the type is supported but the
document should not be processed. -/
theorem onDocumentOpened_skips {doc : TextDocument}
    {ft : SupportedFileType} (h : ContentAnalyzer.getFileType doc = some ft)
    (hsp : ContentAnalyzer.shouldProcessDocument doc = false)
    (now : TimestampService.JsDate) (host : Host) :
    FileMonitor.onDocumentOpened doc now host =
      ({ success := true
         documentModified := false
         processingState := .skipped }, getText doc) := by
  simp [FileMonitor.onDocumentOpened, analyzeContent_of_fileType h, hsp]

/-- `onDocumentOpened` fails on an undetected file type. -/
theorem onDocumentOpened_no_fileType {doc : TextDocument}
    (h : ContentAnalyzer.getFileType doc = none)
    (now : TimestampService.JsDate) (host : Host) :
    FileMonitor.onDocumentOpened doc now host =
      ({ success := false
         error := some "Unsupported file type"
         documentModified := false
         processingState := .failed }, getText doc) := by
  simp [FileMonitor.onDocumentOpened, analyzeContent_of_no_fileType h]

/-! ## Sample documents used by witnesses and counterexamples -/

/-- A plain `.txt` document backed by an ordinary file. -/
def mkTxtDoc (lines : List String) : TextDocument :=
  { lines := lines
    fileName := "test.txt"
    languageId := "plaintext"
    uri := ⟨"file", "/test.txt"⟩
    isUntitled := false
    isDirty := false
    isClosed := false }

/-- A sample instant: 2025-01-08, 14:30 local time. -/
def sampleDate : TimestampService.JsDate :=
  { year := 2025, monthIndex := 0, day := 8, hours := 14, minutes := 30 }

/-- A sample host: the edit request is accepted, the permission
analysis would throw, `lineAt` reports an illegal line, and no editor
is active. -/
def sampleHost : Host :=
  { applyEditOk := true
    permissionAdvice := none
    lineAtFailureMsg := "Illegal value for line"
    activeEditorUri := none }

/-- A modifiable `.txt` document whose only line is the marker, then
closed: the host reports `isClosed = true`. -/
def closedTxtDoc : TextDocument := { mkTxtDoc [".LOG"] with isClosed := true }

/-- A document with an unsupported extension and an unsupported
language id, so no file type is detected. -/
def unsupportedDoc : TextDocument :=
  { lines := ["hello"]
    fileName := "app.js"
    languageId := "javascript"
    uri := ⟨"file", "/app.js"⟩
    isUntitled := false
    isDirty := false
    isClosed := false }

/-! ## Claims -/

/-- C3: marker detection is case-sensitive and holds exactly when the
document has at least one line whose trimmed first line is `.LOG`;
`.log`, `prefix .LOG`, `.LOG extra`, a marker on a later line, and the
empty document all fail; surrounding whitespace is trimmed away; the
handlers' own marker test agrees with the analyzer's. -/
theorem marker_detection_exact_c3 :
    (∀ doc : TextDocument, ContentAnalyzer.isLogFile doc = true ↔
       ∃ firstLine rest, doc.lines = firstLine :: rest ∧
         jsTrim firstLine = ".LOG")
    ∧ (∀ doc : TextDocument,
        BaseFileHandler.hasLogMarker doc = ContentAnalyzer.isLogFile doc)
    ∧ ContentAnalyzer.isLogFile (mkTxtDoc [".log"]) = false
    ∧ ContentAnalyzer.isLogFile (mkTxtDoc ["prefix .LOG"]) = false
    ∧ ContentAnalyzer.isLogFile (mkTxtDoc [".LOG extra"]) = false
    ∧ ContentAnalyzer.isLogFile (mkTxtDoc ["first line", ".LOG"]) = false
    ∧ ContentAnalyzer.isLogFile (mkTxtDoc []) = false
    ∧ ContentAnalyzer.isLogFile (mkTxtDoc ["  .LOG  "]) = true
    ∧ ContentAnalyzer.isLogFile (mkTxtDoc [".LOG"]) = true := by
  refine ⟨?_, ?_, by decide, by decide, by decide, by decide, by decide,
    by decide, by decide⟩
  · intro doc
    cases hl : doc.lines with
    | nil => simp [ContentAnalyzer.isLogFile, hl]
    | cons f r => simp [ContentAnalyzer.isLogFile, hl, ContentAnalyzer.logMarker]
  · intro doc
    cases hl : doc.lines <;>
      simp [BaseFileHandler.hasLogMarker, ContentAnalyzer.isLogFile,
        ContentAnalyzer.logMarker, hl]

/-- C9: the monitor is a two-state machine: `startMonitoring` turns an
inactive monitor active (subscribing) and fails without a state change
when already active; `stopMonitoring` turns an active monitor inactive
(dropping the subscription) and fails without a state change when
already inactive; `dispose` forces the inactive state from any state
and is idempotent. -/
theorem monitor_state_machine_c9 :
    (∀ s : FileMonitor.MonitorState, s.isActive = false →
       FileMonitor.startMonitoring s =
         (⟨true, true⟩, { success := true, data := some () }))
    ∧ (∀ s : FileMonitor.MonitorState, s.isActive = true →
        FileMonitor.startMonitoring s =
          (s, { success := false
                error := some "File monitoring is already active"
                errorCode := some "MONITOR_ALREADY_ACTIVE" }))
    ∧ (∀ s : FileMonitor.MonitorState, s.isActive = true →
        FileMonitor.stopMonitoring s =
          (⟨false, false⟩, { success := true, data := some () }))
    ∧ (∀ s : FileMonitor.MonitorState, s.isActive = false →
        FileMonitor.stopMonitoring s =
          (s, { success := false
                error := some "File monitoring is not active"
                errorCode := some "MONITOR_NOT_ACTIVE" }))
    ∧ (∀ s : FileMonitor.MonitorState,
        (FileMonitor.dispose s).isActive = false)
    ∧ (∀ s : FileMonitor.MonitorState,
        FileMonitor.dispose (FileMonitor.dispose s) = FileMonitor.dispose s) := by
  refine ⟨?_, ?_, ?_, ?_, ?_, ?_⟩ <;> intro s
  · intro h; simp [FileMonitor.startMonitoring, h]
  · intro h; simp [FileMonitor.startMonitoring, h]
  · intro h; simp [FileMonitor.stopMonitoring, h]
  · intro h; simp [FileMonitor.stopMonitoring, h]
  · rcases s with ⟨a, b⟩
    cases a <;> simp [FileMonitor.dispose, FileMonitor.stopMonitoring]
  · rcases s with ⟨a, b⟩
    cases a <;> simp [FileMonitor.dispose, FileMonitor.stopMonitoring]

/-- C9 witness: starting an inactive monitor activates it. -/
theorem monitor_state_machine_c9_witness :
    FileMonitor.startMonitoring ⟨false, false⟩ =
      (⟨true, true⟩, { success := true, data := some () }) :=
  monitor_state_machine_c9.1 ⟨false, false⟩ rfl

/-- C7: when a document cannot be modified (for instance closed, or
backed by a scheme other than `file`/`untitled`), `processDocument`
returns the permission-denial failure (success false, documentModified
false, state failed, the read-only error message) and leaves the text
untouched; moreover a closed document is never modifiable. -/
theorem readonly_document_c7 (fmt : String → String) (doc : TextDocument)
    (ts : String) (host : Host)
    (h : DocumentEditor.canModifyDocument doc = false) :
    BaseFileHandler.processDocument fmt doc ts host =
      ({ success := false
         error := some "Document is read-only or cannot be modified"
         documentModified := false
         processingState := .failed }, getText doc)
    ∧ (∀ d : TextDocument, d.isClosed = true →
        DocumentEditor.canModifyDocument d = false) := by
  constructor
  · simp [BaseFileHandler.processDocument, h]
  · intro d hd
    simp [DocumentEditor.canModifyDocument, hd]

/-- C7 witness: a closed marker document is rejected with the
permission-denial failure and its text is untouched. -/
theorem readonly_document_c7_witness :
    BaseFileHandler.processDocument textFormatTimestamp closedTxtDoc
        "2025-01-08 02:30 PM" sampleHost =
      ({ success := false
         error := some "Document is read-only or cannot be modified"
         documentModified := false
         processingState := .failed }, getText closedTxtDoc) :=
  (readonly_document_c7 textFormatTimestamp closedTxtDoc
    "2025-01-08 02:30 PM" sampleHost (by decide)).1

/-- C8: when the append succeeds, `processDocument` reports overall
success with `documentModified = true` and state completed, even if
cursor placement fails for the given active editor. -/
theorem cursor_failure_still_success_c8 (fmt : String → String)
    (doc : TextDocument) (ts : String) (host : Host)
    (hmod : DocumentEditor.canModifyDocument doc = true)
    (hne : doc.lines ≠ [])
    (hok : host.applyEditOk = true)
    (hcursor : (DocumentEditor.positionCursorAtEnd doc
      host.activeEditorUri).success = false) :
    (BaseFileHandler.processDocument fmt doc ts host).fst =
      { success := true
        documentModified := true
        processingState := .completed
        timestamp := some (fmt ts) } := by
  rw [processDocument_completed fmt doc ts host hmod hne hok]

/-- C8 witness: with no active editor the cursor step fails, yet the
marker document's processing result is a completed success. -/
theorem cursor_failure_still_success_c8_witness :
    (DocumentEditor.positionCursorAtEnd (mkTxtDoc [".LOG"])
        sampleHost.activeEditorUri).success = false
    ∧ (BaseFileHandler.processDocument textFormatTimestamp (mkTxtDoc [".LOG"])
        "2025-01-08 02:30 PM" sampleHost).fst =
      { success := true
        documentModified := true
        processingState := .completed
        timestamp := some (textFormatTimestamp "2025-01-08 02:30 PM") } :=
  ⟨by decide,
   cursor_failure_still_success_c8 textFormatTimestamp (mkTxtDoc [".LOG"])
     "2025-01-08 02:30 PM" sampleHost (by decide) (by decide) (by decide)
     (by decide)⟩

/-- C10: a document with no detected file type makes `onDocumentOpened`
return a Failed result (success false, documentModified false, state
failed) carrying the unsupported-type error, with the text untouched,
while the event-stream pre-filter path returns silently with no result
at all. -/
theorem unsupported_type_failed_c10 (doc : TextDocument)
    (now : TimestampService.JsDate) (host : Host)
    (h : ContentAnalyzer.getFileType doc = none) :
    FileMonitor.onDocumentOpened doc now host =
      ({ success := false
         error := some "Unsupported file type"
         documentModified := false
         processingState := .failed }, getText doc)
    ∧ FileMonitor.handleDocumentOpened doc now host = none := by
  exact ⟨onDocumentOpened_no_fileType h now host,
    by simp [FileMonitor.handleDocumentOpened, h]⟩

/-- C10 witness: a JavaScript file is Failed by `onDocumentOpened` and
silently ignored by the event path. -/
theorem unsupported_type_failed_c10_witness :
    FileMonitor.onDocumentOpened unsupportedDoc sampleDate sampleHost =
      ({ success := false
         error := some "Unsupported file type"
         documentModified := false
         processingState := .failed }, getText unsupportedDoc)
    ∧ FileMonitor.handleDocumentOpened unsupportedDoc sampleDate sampleHost
        = none :=
  unsupported_type_failed_c10 unsupportedDoc sampleDate sampleHost (by decide)

/-- A markerless document with an unsupported extension and language. -/
def noMarkerUnsupportedDoc : TextDocument :=
  { lines := ["no marker here"]
    fileName := "notes.py"
    languageId := "javascript"
    uri := ⟨"file", "/notes.py"⟩
    isUntitled := false
    isDirty := false
    isClosed := false }

/-- A marker document with a `.py` extension whose language id is
reported as `plaintext`. -/
def pyPlaintextDoc : TextDocument :=
  { lines := [".LOG"]
    fileName := "script.py"
    languageId := "plaintext"
    uri := ⟨"file", "/script.py"⟩
    isUntitled := false
    isDirty := false
    isClosed := false }

/-- A marker document with a `.py` extension and the `python` language
id, so no file type is detected. -/
def pyPythonDoc : TextDocument :=
  { lines := [".LOG"]
    fileName := "script.py"
    languageId := "python"
    uri := ⟨"file", "/script.py"⟩
    isUntitled := false
    isDirty := false
    isClosed := false }

/-- C2 counterexample: for a markerless document whose type is not
detected (unsupported extension and language), `onDocumentOpened` does
not produce the claimed Skipped success result: it returns a Failed
result with success false. -/
theorem no_marker_skip_c2_counterexample :
    (FileMonitor.onDocumentOpened noMarkerUnsupportedDoc sampleDate
        sampleHost).fst.success = false
    ∧ (FileMonitor.onDocumentOpened noMarkerUnsupportedDoc sampleDate
        sampleHost).fst.processingState ≠ ProcessingState.skipped := by
  decide

/-- C2 amended: a document whose trimmed first line is not the marker
is never modified, for every extension; the Skipped result
(success true, documentModified false) is produced exactly when a file
type is detected, while an undetected type yields a Failed result
(text still unchanged). -/
theorem no_marker_frame_c2 (doc : TextDocument)
    (now : TimestampService.JsDate) (host : Host)
    (h : ContentAnalyzer.isLogFile doc = false) :
    (FileMonitor.onDocumentOpened doc now host).snd = getText doc
    ∧ (∀ ft, ContentAnalyzer.getFileType doc = some ft →
        FileMonitor.onDocumentOpened doc now host =
          ({ success := true
             documentModified := false
             processingState := .skipped }, getText doc))
    ∧ (ContentAnalyzer.getFileType doc = none →
        (FileMonitor.onDocumentOpened doc now host).fst.success
          = false) := by
  have hsp : ContentAnalyzer.shouldProcessDocument doc = false := by
    simp [ContentAnalyzer.shouldProcessDocument, h]
  refine ⟨?_, ?_, ?_⟩
  · cases hft : ContentAnalyzer.getFileType doc with
    | none => rw [onDocumentOpened_no_fileType hft]
    | some ft => rw [onDocumentOpened_skips hft hsp]
  · intro ft hft
    exact onDocumentOpened_skips hft hsp now host
  · intro hft
    rw [onDocumentOpened_no_fileType hft]

/-- C2 witness: a supported document without the marker is skipped and
left unchanged. -/
theorem no_marker_frame_c2_witness :
    (FileMonitor.onDocumentOpened (mkTxtDoc ["no marker here"]) sampleDate
        sampleHost).snd = getText (mkTxtDoc ["no marker here"])
    ∧ (∀ ft, ContentAnalyzer.getFileType (mkTxtDoc ["no marker here"]) = some ft →
        FileMonitor.onDocumentOpened (mkTxtDoc ["no marker here"]) sampleDate
            sampleHost =
          ({ success := true
             documentModified := false
             processingState := .skipped }, getText (mkTxtDoc ["no marker here"])))
    ∧ (ContentAnalyzer.getFileType (mkTxtDoc ["no marker here"]) = none →
        (FileMonitor.onDocumentOpened (mkTxtDoc ["no marker here"]) sampleDate
            sampleHost).fst.success = false) :=
  no_marker_frame_c2 (mkTxtDoc ["no marker here"]) sampleDate sampleHost
    (by decide)

/-- C5 counterexample: a `.py` document whose host language id is
`plaintext` and whose first line is the marker IS modified by
processing, so an unsupported extension alone does not protect the
document. -/
theorem unsupported_extension_c5_counterexample :
    (FileMonitor.onDocumentOpened pyPlaintextDoc sampleDate sampleHost).snd
      ≠ getText pyPlaintextDoc := by
  decide

/-- C5 amended: a marker document whose extension is not txt/log/md AND
whose language id does not map to a supported type is left unchanged;
the event path produces no result for it at all. -/
theorem unsupported_extension_c5_amended (doc : TextDocument)
    (now : TimestampService.JsDate) (host : Host)
    (hmarker : ContentAnalyzer.isLogFile doc = true)
    (hext : ContentAnalyzer.extOf doc.fileName ≠ some "txt"
          ∧ ContentAnalyzer.extOf doc.fileName ≠ some "log"
          ∧ ContentAnalyzer.extOf doc.fileName ≠ some "md")
    (hlang : ContentAnalyzer.fileTypeFromLanguageId doc.languageId = none) :
    (FileMonitor.onDocumentOpened doc now host).snd = getText doc
    ∧ FileMonitor.handleDocumentOpened doc now host = none := by
  have hft : ContentAnalyzer.getFileType doc = none := by
    unfold ContentAnalyzer.getFileType
    cases he : ContentAnalyzer.extOf doc.fileName with
    | none => exact hlang
    | some e =>
      obtain ⟨h1, h2, h3⟩ := hext
      rw [he] at h1 h2 h3
      simp only [ne_eq, Option.some.injEq] at h1 h2 h3
      simp [h1, h2, h3, hlang]
  refine ⟨?_, ?_⟩
  · rw [onDocumentOpened_no_fileType hft]
  · simp [FileMonitor.handleDocumentOpened, hft]

/-- C5 witness: a `.py` marker document with the `python` language id
is untouched and produces no event-path result. -/
theorem unsupported_extension_c5_witness :
    (FileMonitor.onDocumentOpened pyPythonDoc sampleDate sampleHost).snd
        = getText pyPythonDoc
    ∧ FileMonitor.handleDocumentOpened pyPythonDoc sampleDate sampleHost
        = none :=
  unsupported_extension_c5_amended pyPythonDoc sampleDate sampleHost
    (by decide) ⟨by decide, by decide, by decide⟩ (by decide)

/-- The `YYYY-MM-DD HH:MM` 24-hour shape asserted by the claim, read
off the spec's words: four year digits, two month/day/hour/minute
digits, the literal separators, and nothing after the minute. -/
def claim24HourShape (s : String) : Bool :=
  match s.data with
  | [y1, y2, y3, y4, d1, mo1, mo2, d2, da1, da2, sp, h1, h2, c1, mi1, mi2] =>
    y1.isDigit && y2.isDigit && y3.isDigit && y4.isDigit && d1 = '-' &&
    mo1.isDigit && mo2.isDigit && d2 = '-' && da1.isDigit && da2.isDigit &&
    sp = ' ' && h1.isDigit && h2.isDigit && c1 = ':' && mi1.isDigit && mi2.isDigit
  | _ => false

/-- C4 counterexample: at 14:30 the generator produces
`2025-01-08 02:30 PM`, a 12-hour AM/PM string, not the claimed
24-hour `YYYY-MM-DD HH:MM` shape. -/
theorem timestamp_format_c4_counterexample :
    TimestampService.formatTimestamp ⟨2025, 0, 8, 14, 30⟩ = "2025-01-08 02:30 PM"
    ∧ claim24HourShape (TimestampService.formatTimestamp ⟨2025, 0, 8, 14, 30⟩)
        = false := by
  decide

/-- C4 amended: for every instant the generator produces
`YYYY-MM-DD HH:MM AM/PM` with a 12-hour zero-padded hour (in 1..12,
congruent to the 24-hour hour mod 12, PM exactly from hour 12 on) and a
zero-padded minute, and every format handler passes the timestamp
string through unchanged inside its fixed wrapper. -/
theorem timestamp_format_c4_amended :
    (∀ d : TimestampService.JsDate, d.hours ≤ 23 →
      ∃ hh, 1 ≤ hh ∧ hh ≤ 12 ∧ hh % 12 = d.hours % 12 ∧
        TimestampService.formatTimestamp d =
          Nat.repr d.year ++ "-" ++ TimestampService.padTwo (d.monthIndex + 1)
            ++ "-" ++ TimestampService.padTwo d.day ++ " "
            ++ TimestampService.padTwo hh ++ ":"
            ++ TimestampService.padTwo d.minutes
            ++ " " ++ (if d.hours ≥ 12 then "PM" else "AM"))
    ∧ (∀ n, n < 100 → (TimestampService.padTwo n).length = 2)
    ∧ (∀ ts, textFormatTimestamp ts = "\n" ++ ts ++ "\n")
    ∧ (∀ ts, logFormatTimestamp ts = "\n" ++ ts ++ "\n")
    ∧ (∀ ts, markdownFormatTimestamp ts = "\n## " ++ ts ++ "\n") := by
  refine ⟨?_, by decide, fun ts => rfl, fun ts => rfl, fun ts => rfl⟩
  intro d h
  refine ⟨if d.hours = 0 then 12
          else if d.hours > 12 then d.hours - 12 else d.hours,
    ?_, ?_, ?_, rfl⟩
  · split_ifs <;> omega
  · split_ifs <;> omega
  · split_ifs <;> omega

/-- C4 witness: the amended format statement at 2025-01-08 14:30. -/
theorem timestamp_format_c4_amended_witness :
    ∃ hh, 1 ≤ hh ∧ hh ≤ 12 ∧ hh % 12 = sampleDate.hours % 12 ∧
      TimestampService.formatTimestamp sampleDate =
        Nat.repr sampleDate.year ++ "-"
          ++ TimestampService.padTwo (sampleDate.monthIndex + 1)
          ++ "-" ++ TimestampService.padTwo sampleDate.day ++ " "
          ++ TimestampService.padTwo hh ++ ":"
          ++ TimestampService.padTwo sampleDate.minutes
          ++ " " ++ (if sampleDate.hours ≥ 12 then "PM" else "AM") :=
  timestamp_format_c4_amended.1 sampleDate (by decide)

/-- C1: for a modifiable document with a supported extension whose
trimmed first line is the marker, one processing run (with the host
accepting the edit) completes successfully and the new text is exactly
the old text followed by one well-formed insertion: an optional
separating line feed (present iff the last line is nonempty) and the
detected type's formatted timestamp; the pre-existing content is
byte-for-byte the unchanged prefix. -/
theorem marker_append_c1 (doc : TextDocument)
    (now : TimestampService.JsDate) (host : Host)
    (hext : ContentAnalyzer.extOf doc.fileName = some "txt"
          ∨ ContentAnalyzer.extOf doc.fileName = some "log"
          ∨ ContentAnalyzer.extOf doc.fileName = some "md")
    (hmarker : ContentAnalyzer.isLogFile doc = true)
    (hmod : DocumentEditor.canModifyDocument doc = true)
    (hok : host.applyEditOk = true) :
    ∃ ft, ContentAnalyzer.getFileType doc = some ft ∧
      FileMonitor.onDocumentOpened doc now host =
        ({ success := true
           documentModified := true
           processingState := .completed
           timestamp := some (handlerFor ft (TimestampService.formatTimestamp now)) },
         getText doc
           ++ ((if (doc.lines.getLastD "").length > 0 then "\n" else "")
               ++ handlerFor ft (TimestampService.formatTimestamp now))) := by
  have hne := isLogFile_lines_ne_nil hmarker
  have key : ∀ ft, ContentAnalyzer.getFileType doc = some ft →
      FileMonitor.onDocumentOpened doc now host =
        ({ success := true
           documentModified := true
           processingState := .completed
           timestamp := some (handlerFor ft (TimestampService.formatTimestamp now)) },
         getText doc
           ++ ((if (doc.lines.getLastD "").length > 0 then "\n" else "")
               ++ handlerFor ft (TimestampService.formatTimestamp now))) := by
    intro ft hft
    have hsp : ContentAnalyzer.shouldProcessDocument doc = true := by
      simp [ContentAnalyzer.shouldProcessDocument, hmarker, hft]
    rw [onDocumentOpened_delegates hft hsp,
      processDocument_completed _ _ _ _ hmod hne hok,
      prepareTextForInsertion_eq _ _ hne]
    simp [handlerFor_endsWithNewline]
  rcases hext with h | h | h
  · have hft : ContentAnalyzer.getFileType doc = some .text := by
      simp [ContentAnalyzer.getFileType, h]
    exact ⟨_, hft, key _ hft⟩
  · have hft : ContentAnalyzer.getFileType doc = some .log := by
      simp [ContentAnalyzer.getFileType, h]
    exact ⟨_, hft, key _ hft⟩
  · have hft : ContentAnalyzer.getFileType doc = some .markdown := by
      simp [ContentAnalyzer.getFileType, h]
    exact ⟨_, hft, key _ hft⟩

/-- C1 witness: a `.txt` document holding only the marker line gains
exactly the plain insertion. -/
theorem marker_append_c1_witness :
    ∃ ft, ContentAnalyzer.getFileType (mkTxtDoc [".LOG"]) = some ft ∧
      FileMonitor.onDocumentOpened (mkTxtDoc [".LOG"]) sampleDate sampleHost =
        ({ success := true
           documentModified := true
           processingState := .completed
           timestamp := some (handlerFor ft
             (TimestampService.formatTimestamp sampleDate)) },
         getText (mkTxtDoc [".LOG"])
           ++ ((if ((mkTxtDoc [".LOG"]).lines.getLastD "").length > 0
                then "\n" else "")
               ++ handlerFor ft (TimestampService.formatTimestamp sampleDate))) :=
  marker_append_c1 (mkTxtDoc [".LOG"]) sampleDate sampleHost
    (Or.inl (by decide)) (by decide) (by decide) (by decide)

/-- The spec's `.txt` scenario document: first line the marker, second
line `Meeting notes`. -/
def meetingNotesDoc : TextDocument :=
  { lines := [".LOG", "Meeting notes"]
    fileName := "notes.txt"
    languageId := "plaintext"
    uri := ⟨"file", "/notes.txt"⟩
    isUntitled := false
    isDirty := false
    isClosed := false }

/-- C6: on a nonempty document the prepared insertion is the input text
with a line feed prepended iff the current last line is nonempty and a
line feed appended iff the text does not already end in one; processing
the `.LOG` / `Meeting notes` `.txt` document yields the lines `.LOG`,
`Meeting notes`, an empty separating line, then the timestamp line
(each line feed written explicitly; the final line feed ends the
inserted block). -/
theorem prepare_rule_scenario_c6 :
    (∀ (doc : TextDocument) (text : String), doc.lines ≠ [] →
      DocumentEditor.prepareTextForInsertion doc text =
        (if (doc.lines.getLastD "").length > 0 then "\n" else "")
          ++ text
          ++ (if endsWithNewline text then "" else "\n"))
    ∧ (∀ (now : TimestampService.JsDate) (host : Host),
        host.applyEditOk = true →
        (FileMonitor.onDocumentOpened meetingNotesDoc now host).snd =
          ".LOG" ++ "\n" ++ "Meeting notes" ++ "\n" ++ "" ++ "\n"
            ++ TimestampService.formatTimestamp now ++ "\n") := by
  refine ⟨fun doc text h => prepareTextForInsertion_eq doc text h, ?_⟩
  intro now host hok
  have hft : ContentAnalyzer.getFileType meetingNotesDoc = some .text := by
    decide
  have hsp : ContentAnalyzer.shouldProcessDocument meetingNotesDoc = true := by
    decide
  have hne : meetingNotesDoc.lines ≠ [] := by decide
  rw [onDocumentOpened_delegates hft hsp,
    processDocument_completed _ _ _ _ (by decide) hne hok,
    prepareTextForInsertion_eq _ _ hne]
  have hg : getText meetingNotesDoc = ".LOG\nMeeting notes" := by decide
  have hpre :
      (if (meetingNotesDoc.lines.getLastD "").length > 0
       then ("\n" : String) else "") = "\n" := by decide
  simp only [hg, hpre, handlerFor_endsWithNewline, if_true, handlerFor,
    textFormatTimestamp, endsWithNewline_append_newline, String.append_empty]
  simp only [← String.append_assoc, String.append_empty]
  rw [show (".LOG\nMeeting notes" ++ "\n") ++ "\n"
        = (((".LOG" ++ "\n") ++ "Meeting notes") ++ "\n") ++ "\n" from by decide]

/-- C6 witness: the preparation rule instantiated on the scenario
document and a bare timestamp text, and the scenario conclusion at the
sample instant under the sample host. -/
theorem prepare_rule_scenario_c6_witness :
    (DocumentEditor.prepareTextForInsertion meetingNotesDoc "2025-01-08 02:30 PM" =
      (if ((meetingNotesDoc.lines.getLastD "").length > 0) then "\n" else "")
        ++ "2025-01-08 02:30 PM"
        ++ (if endsWithNewline "2025-01-08 02:30 PM" then "" else "\n"))
    ∧ ((FileMonitor.onDocumentOpened meetingNotesDoc sampleDate sampleHost).snd =
        ".LOG" ++ "\n" ++ "Meeting notes" ++ "\n" ++ "" ++ "\n"
          ++ TimestampService.formatTimestamp sampleDate ++ "\n") :=
  ⟨prepare_rule_scenario_c6.1 meetingNotesDoc "2025-01-08 02:30 PM" (by decide),
   prepare_rule_scenario_c6.2 sampleDate sampleHost (by decide)⟩
